import Mathlib

/-!
Verification of the core data-transformation routine of the traffic study
application (module `traffic_app/processing.py`, function `process_traffic_data`).

The Python pipeline is shallowly embedded as executable Lean functions:

* volume cells are strings parsed by a model of `pd.to_numeric(..., errors =
  coerce)`; a missing or unparsable value is `Option.none` (pandas `NaN`);
* the AM/PM volume tables are association lists keyed by the `INTID` string;
* the outer merge, the per-movement combined display strings, the tolerant
  tab-delimited ATTOUT parser and the ATTIN assembler follow the source line
  by line;
* file system effects are modelled by returning the list of files the run has
  written (name and content) together with an `Except` result, in the order
  the source writes them.

Logging calls of the source are not modelled.  Python `set` membership for
`processed_handles` is modelled by a cons list used only through `∈`.
-/

namespace TrafficApp

/-- Module constant `MOVEMENT_COLS` (processing.py line 7): the 16 movement
codes. -/
def MOVEMENT_COLS : List String :=
  ["EBU", "EBL", "EBT", "EBR", "WBU", "WBL", "WBT", "WBR",
   "NBU", "NBL", "NBT", "NBR", "SBU", "SBL", "SBT", "SBR"]

/-- Module constant `MIN_INPUT_COLS` (line 8). -/
def MIN_INPUT_COLS : List String := ["RECORDNAME", "INTID"] ++ MOVEMENT_COLS

/-- Module constant `ATTOUT_MIN_COLS` (line 9). -/
def ATTOUT_MIN_COLS : List String := ["HANDLE", "BLOCKNAME", "NODE_ID"]

/-- Python `str.strip()` on a character list: remove leading and trailing
whitespace (space, tab, carriage return, newline). -/
def pyStripList (l : List Char) : List Char :=
  ((l.dropWhile Char.isWhitespace).reverse.dropWhile Char.isWhitespace).reverse

/-- Python `str.strip()`. -/
def pyStrip (s : String) : String := String.mk (pyStripList s.data)

/-- Python `s.split(tab)` on a character list: split at every tab character,
keeping empty parts; the result is always nonempty. -/
def splitTabList : List Char → List (List Char)
  | [] => [[]]
  | c :: rest =>
    match splitTabList rest with
    | [] => [[c]]
    | g :: gs => if c = '\t' then [] :: g :: gs else (c :: g) :: gs

/-- Python `s.split(tab)`. -/
def pySplitTab (s : String) : List String := (splitTabList s.data).map String.mk

/-- Python `sep.join(xs)`. -/
def joinSep (sep : String) : List String → String
  | [] => ""
  | [x] => x
  | x :: y :: ys => x ++ sep ++ joinSep sep (y :: ys)

/-- Decimal digits to a natural number. -/
def digitsToNat (l : List Char) : Nat :=
  l.foldl (fun acc c => acc * 10 + (c.toNat - '0'.toNat)) 0

/-- Model of `pd.to_numeric(cell, errors = coerce)` on one cell string
(processing.py lines 35 and 43): an optional sign followed by decimal digits
with at most one decimal point parses to a rational; everything else
(including the empty cell) coerces to the explicit no-value marker `none`,
never to zero and never to an error.  Exponent notation, which pandas also
accepts, is not modelled; no claim depends on it. -/
def parseNumeric (s : String) : Option Rat :=
  let l := pyStripList s.data
  let signed : Bool × List Char :=
    match l with
    | '-' :: r => (true, r)
    | '+' :: r => (false, r)
    | r => (false, r)
  let ip := signed.2.takeWhile Char.isDigit
  let rest := signed.2.dropWhile Char.isDigit
  let frac : Option (List Char) :=
    match rest with
    | [] => some []
    | '.' :: fr => if fr.all Char.isDigit then some fr else none
    | _ => none
  match frac with
  | none => none
  | some fr =>
    if ip = [] ∧ fr = [] then none
    else
      let num : Int := Int.ofNat (digitsToNat (ip ++ fr))
      some (mkRat (if signed.1 then -num else num) (10 ^ fr.length))

/-- Python `int(x)` on a (finite) float value: truncation toward zero. -/
def pyInt (q : Rat) : Int := q.num.tdiv q.den

/-- One side of the combined string (processing.py lines 62 and 63):
`str(int(v)) if pd.notna(v) else '-'`. -/
def fmtVal (v : Option Rat) : String :=
  match v with
  | some q => toString (pyInt q)
  | none => "-"

/-- Python `move.startswith(prefixes)` for a tuple of prefixes. -/
def pyStartsWithAny (s : String) (ps : List String) : Bool :=
  ps.any (fun p => p.data.isPrefixOf s.data)

/-- `calculate_merged_string` (processing.py lines 60-65), applied to the AM
and PM values of one movement of one merged row. -/
def calculate_merged_string (move : String) (am_val pm_val : Option Rat) : String :=
  let am_str := fmtVal am_val
  let pm_str := fmtVal pm_val
  if pyStartsWithAny move ["E", "S"] then "(" ++ pm_str ++ ")" ++ am_str
  else am_str ++ "(" ++ pm_str ++ ")"

/-- The combined display string as the spec words it (§4.2): render each
present side as a truncated-integer string and the absent side as `-`; if the
approach direction (the first letter of the movement code) is `E` or `S` the
combined string is `(PM)AM`, and if it is `W` or `N` it is `AM(PM)`. -/
def specCombinedString (move : String) (am pm : Option Rat) : String :=
  let amS := match am with | some q => toString (pyInt q) | none => "-"
  let pmS := match pm with | some q => toString (pyInt q) | none => "-"
  match move.data with
  | c :: _ =>
    if c = 'E' ∨ c = 'S' then "(" ++ pmS ++ ")" ++ amS else amS ++ "(" ++ pmS ++ ")"
  | [] => amS ++ "(" ++ pmS ++ ")"

/-- The per-cell rendering used while building an ATTIN line (processing.py
lines 150-158): a movement column that does not resolve renders empty, the
literal `-(-)` renders empty, anything else is emitted unchanged. -/
def renderAttinCell (v : Option String) : String :=
  match v with
  | some s => if s = "-(-)" then "" else s
  | none => ""

/-- A loaded movement row: movement code to optional numeric volume. -/
abbrev MovRow := List (String × Option Rat)

/-- A loaded volume table: `INTID` key to movement row, in file order. -/
abbrev VolTable := List (String × MovRow)

/-- The key list of an association table. -/
def keysOf {α : Type} (t : List (String × α)) : List String := t.map Prod.fst

/-- One surviving CSV row turned into a keyed volume record (lines 34-35 and
42-43): key by the `INTID` string, coerce every movement cell with
`parseNumeric`. -/
def volRowOfInput (r : List (String × String)) : String × MovRow :=
  ((r.lookup "INTID").getD "",
   MOVEMENT_COLS.map (fun m => (m, (r.lookup m).bind parseNumeric)))

/-- The volume table loader (lines 32-44): fail when a required column is
absent (the `ValueError` of line 33 and 41), keep only rows whose
`RECORDNAME` is the literal `Volume`, then build keyed records.  The
unconditional `skiprows=1` and the CSV tokenizer itself are not modelled: an
input file arrives as its column header plus rows of column-keyed cells. -/
def loadVolumeTable (header : List String) (rows : List (List (String × String))) :
    Except String VolTable :=
  if MIN_INPUT_COLS.all (fun c => header.contains c) then
    Except.ok ((rows.filter (fun r => r.lookup "RECORDNAME" == some "Volume")).map
      volRowOfInput)
  else Except.error "CSV is missing required columns."

/-- `pd.merge(df_am, df_pm, left_index=.., right_index=.., how=outer)` of
line 49, for tables with unique indices (the data-model invariant of the
loaded tables): the result key list is the key union — the AM keys, then the
PM keys not present in AM — and each key carries the optional AM row and the
optional PM row of that intersection. -/
def outerMerge (am pm : VolTable) :
    List (String × (Option MovRow × Option MovRow)) :=
  (keysOf am ++ (keysOf pm).filter (fun k => decide (k ∉ keysOf am))).map
    (fun k => (k, (am.lookup k, pm.lookup k)))

/-- Reading one movement value out of one side of a merged row (line 61,
`row.get(col)`): a side absent from the join, or a column absent from the
side, reads as NaN. -/
def sideVal (r : Option MovRow) (m : String) : Option Rat :=
  match r with
  | some row => (row.lookup m).join
  | none => none

/-- Steps 3 and 4 (lines 47-66): merge the two tables and compute the 16
combined display strings for every merged key. -/
def mergedStrings (am pm : VolTable) : List (String × List (String × String)) :=
  (outerMerge am pm).map (fun kv =>
    (kv.1, MOVEMENT_COLS.map (fun m =>
      (m, calculate_merged_string m (sideVal kv.2.1 m) (sideVal kv.2.2 m)))))

/-- The outcome of parsing one ATTOUT data line (lines 99-112): blank lines
are skipped, lines with fewer than 3 tab-separated fields are dropped as
malformed, every other line becomes a field record. -/
inductive LineParse where
  | blank
  | malformed
  | record (fields : List (String × String))
deriving DecidableEq

/-- One ATTOUT data line (lines 99-112): strip, skip if blank, split on tabs
and strip each part, drop when fewer than 3 parts, right-pad with empty
strings up to the header width when shorter than the header, then zip
positionally with the header names. -/
def parseAttoutLine (headerCols : List String) (line : String) : LineParse :=
  let c := pyStrip line
  if c = "" then LineParse.blank
  else
    let parts := (pySplitTab c).map pyStrip
    if parts.length < 3 then LineParse.malformed
    else
      let padded :=
        if parts.length < headerCols.length then
          parts ++ List.replicate (headerCols.length - parts.length) ""
        else parts
      LineParse.record (headerCols.zip padded)

/-- `attout_data_parsed` (line 98-113): the records of the data lines, in
file order. -/
def recordsOfLines (headerCols : List String) (lines : List String) :
    List (List (String × String)) :=
  lines.filterMap (fun l =>
    match parseAttoutLine headerCols l with
    | LineParse.record r => some r
    | _ => none)

/-- The mutable state of the ATTIN generation loop (lines 117-120).  The
emitted lines are kept as their tab-field lists; the source joins each with
tabs as it appends, the model defers that join to the file assembly with the
same content.  `processed_handles` is a Python set used only through
membership; it is modelled as a cons list. -/
structure AsmState where
  processed : List String
  attinRows : List (List String)
  nodesNotFound : List String
  handlesMissing : List String
deriving DecidableEq

/-- The loop state before the first record. -/
def initAsmState : AsmState := ⟨[], [], [], []⟩

/-- `att_row_dict.get(HANDLE)`, with Python falsy treating an absent key
like an empty value. -/
def handleOf (r : List (String × String)) : String := (r.lookup "HANDLE").getD ""

/-- `att_row_dict.get(BLOCKNAME)`. -/
def blocknameOf (r : List (String × String)) : String := (r.lookup "BLOCKNAME").getD ""

/-- `att_row_dict.get(NODE_ID)` before the strip of line 134. -/
def rawNodeOf (r : List (String × String)) : String := (r.lookup "NODE_ID").getD ""

/-- The NODE_ID actually used for lookup and output (line 134). -/
def nodeIdOf (r : List (String × String)) : String := pyStrip (rawNodeOf r)

/-- A record that passes the required-field validation of lines 130-138:
non-empty HANDLE, BLOCKNAME and NODE_ID (also after stripping). -/
def validRec (r : List (String × String)) : Prop :=
  handleOf r ≠ "" ∧ blocknameOf r ≠ "" ∧ rawNodeOf r ≠ "" ∧ nodeIdOf r ≠ ""

instance validRecDecidable (r : List (String × String)) : Decidable (validRec r) :=
  inferInstanceAs (Decidable (handleOf r ≠ "" ∧ blocknameOf r ≠ "" ∧
    rawNodeOf r ≠ "" ∧ nodeIdOf r ≠ ""))

/-- One iteration of the ATTIN loop (lines 124-164): skip a record with a
missing required field; skip a duplicate HANDLE; otherwise register the
HANDLE, then look the NODE_ID up in the merged table and either emit a line
(HANDLE, BLOCKNAME, NODE_ID, then the movement cells in the geometry header
order) or record the miss. -/
def asmStep (md : List (String × List (String × String))) (mo : List String)
    (st : AsmState) (r : List (String × String)) : AsmState :=
  let handle := handleOf r
  if handle = "" ∨ blocknameOf r = "" ∨ rawNodeOf r = "" then
    { st with handlesMissing :=
        st.handlesMissing ++ [if handle = "" then "UNKNOWN" else handle] }
  else
    let nid := nodeIdOf r
    if nid = "" then
      { st with handlesMissing := st.handlesMissing ++ [handle] }
    else if handle ∈ st.processed then st
    else
      let st1 := { st with processed := handle :: st.processed }
      match List.lookup nid md with
      | some row =>
        { st1 with attinRows := st1.attinRows ++
            [[handle, blocknameOf r, nid] ++
              mo.map (fun mk => renderAttinCell (row.lookup mk))] }
      | none =>
        { st1 with nodesNotFound := st1.nodesNotFound ++ [nid],
                   handlesMissing := st1.handlesMissing ++ [handle] }

/-- The whole ATTIN loop (line 124). -/
def asmRun (md : List (String × List (String × String))) (mo : List String)
    (recs : List (List (String × String))) (st : AsmState) : AsmState :=
  recs.foldl (asmStep md mo) st

/-- The subsequence keeping only the first record per HANDLE, given the
handles already seen. -/
def keepFirstByHandle (seen : List String) :
    List (List (String × String)) → List (List (String × String))
  | [] => []
  | r :: rs =>
    if handleOf r ∈ seen then keepFirstByHandle seen rs
    else r :: keepFirstByHandle (handleOf r :: seen) rs

/-- Two loop states that agree on everything the loop behaviour depends on
(the registered handles and the emitted rows). -/
def stateSim (s t : AsmState) : Prop :=
  s.processed = t.processed ∧ s.attinRows = t.attinRows

/-- The invariant tying every emitted row to a registered handle. -/
def rowsInv (st : AsmState) : Prop :=
  (st.attinRows.map (fun p => p.head?)).Nodup ∧
  ∀ p ∈ st.attinRows, ∀ h, p.head? = some h → h ∈ st.processed

/-- The three input files of one pipeline invocation.  `none` models a file
that does not exist; the AM/PM files arrive as a column header plus
column-keyed rows, the ATTOUT file as its list of physical lines (without
line terminators). -/
structure PipelineInput where
  amFile : Option (List String × List (List (String × String)))
  pmFile : Option (List String × List (List (String × String)))
  attoutFile : Option (List String)

/-- Step 6 header handling (lines 84-92): empty file, non-tab-delimited
header, and missing required columns are fatal; otherwise return the
stripped raw header line and the stripped header column names. -/
def parseAttoutStructure (lines : List String) : Except String (String × List String) :=
  match lines with
  | [] => Except.error "ATTOUT file is empty."
  | l0 :: _ =>
    let headerRaw := pyStrip l0
    if headerRaw.data.contains '\t' then
      let headerCols := (pySplitTab headerRaw).map pyStrip
      if ATTOUT_MIN_COLS.all (fun c => headerCols.contains c) then
        Except.ok (headerRaw, headerCols)
      else Except.error "ATTOUT file header missing required columns."
    else Except.error "ATTOUT file header does not appear to be tab-delimited."

/-- Output file name of the Merged CSV (line 69; `secure_filename`
sanitization of the scenario name is not modelled). -/
def mergedCsvName (scen : String) : String := scen ++ "_Merged.csv"

/-- Output file name of the ATTIN text file (line 170). -/
def attinTxtName (scen : String) : String := scen ++ "_ATTIN.txt"

/-- The Merged CSV text (lines 69-75): header `Node ID` plus the 16 movement
columns in canonical order, one row per merged key.  pandas quoting is not
modelled: a combined string never contains a comma, a quote or a newline. -/
def renderMergedCsv (merged : List (String × List (String × String))) : String :=
  joinSep "\n" (("Node ID," ++ joinSep "," MOVEMENT_COLS) ::
    merged.map (fun kv => kv.1 ++ "," ++
      joinSep "," (MOVEMENT_COLS.map (fun m => (kv.2.lookup m).getD "")))) ++ "\n"

/-- The ATTIN file text (lines 173-175): the stripped original header line,
a newline, then the emitted lines joined by newlines. -/
def renderAttin (headerRaw : String) (rows : List (List String)) : String :=
  headerRaw ++ "\n" ++ joinSep "\n" (rows.map (joinSep "\t"))

/-- `process_traffic_data` (lines 12-184) as a pure function: the returned
list is the output files the run has written, as (name, content) pairs in
write order, next to the success-or-failure result the caller sees.  Note
the Merged CSV is written (step 5) before the ATTOUT file is even opened
(step 6). -/
def process_traffic_data (inp : PipelineInput) (scen : String) :
    List (String × String) × Except String (String × String) :=
  match inp.amFile with
  | none => ([], Except.error "Input file not found")
  | some am_csv =>
    match loadVolumeTable am_csv.1 am_csv.2 with
    | Except.error e => ([], Except.error e)
    | Except.ok df_am =>
      match inp.pmFile with
      | none => ([], Except.error "Input file not found")
      | some pm_csv =>
        match loadVolumeTable pm_csv.1 pm_csv.2 with
        | Except.error e => ([], Except.error e)
        | Except.ok df_pm =>
          let merged := mergedStrings df_am df_pm
          let csvFile := (mergedCsvName scen, renderMergedCsv merged)
          match inp.attoutFile with
          | none => ([csvFile], Except.error "ATTOUT file not found")
          | some lines =>
            match parseAttoutStructure lines with
            | Except.error e => ([csvFile], Except.error e)
            | Except.ok hdr =>
              let mo := hdr.2.filter (fun c => MOVEMENT_COLS.contains c)
              let recs := recordsOfLines hdr.2 (lines.drop 1)
              let fin := asmRun merged mo recs initAsmState
              ([csvFile, (attinTxtName scen, renderAttin hdr.1 fin.attinRows)],
               Except.ok (mergedCsvName scen, attinTxtName scen))

/-- The first line of a text file content. -/
def firstLineOf (s : String) : String :=
  String.mk (s.data.takeWhile (fun c => !(c == '\n')))

/-- The structural conditions of a run — the file-level and header-level
checks of the pipeline; note none of them depend on the geometry data rows
or on any cell value. -/
def structuralOk (inp : PipelineInput) : Prop :=
  ∃ ah ar ph pr l0 ls,
    inp.amFile = some (ah, ar) ∧ inp.pmFile = some (ph, pr) ∧
    inp.attoutFile = some (l0 :: ls) ∧
    (MIN_INPUT_COLS.all (fun c => ah.contains c)) = true ∧
    (MIN_INPUT_COLS.all (fun c => ph.contains c)) = true ∧
    (pyStrip l0).data.contains '\t' = true ∧
    (ATTOUT_MIN_COLS.all
      (fun c => ((pySplitTab (pyStrip l0)).map pyStrip).contains c)) = true

/-- Example AM table for witnesses. -/
def amEx : VolTable := [("101", [("EBL", some 10)])]

/-- Example PM table for witnesses. -/
def pmEx : VolTable := [("202", [("EBL", some 4)])]

/-- Example volume input row for witnesses. -/
def volRowEx : List (String × String) :=
  [("RECORDNAME", "Volume"), ("INTID", "101"), ("EBL", "abc")]

/-- Example AM CSV rows for pipeline inputs. -/
def amRowsEx : List (List (String × String)) :=
  [[("RECORDNAME", "Volume"), ("INTID", "101"), ("EBL", "10")]]

/-- Example PM CSV rows for pipeline inputs. -/
def pmRowsEx : List (List (String × String)) :=
  [[("RECORDNAME", "Volume"), ("INTID", "101"), ("EBL", "4")]]

/-- Pipeline input with valid volume files and a missing ATTOUT file. -/
def inpNoGeom : PipelineInput :=
  ⟨some (MIN_INPUT_COLS, amRowsEx), some (MIN_INPUT_COLS, pmRowsEx), none⟩

/-- An ATTOUT header line carrying a trailing space before its terminator. -/
def geomLinesWS : List String :=
  ["HANDLE\tBLOCKNAME\tNODE_ID\tEBL ", "H1\tMain St\t101\t"]

/-- Pipeline input whose ATTOUT header line has trailing whitespace. -/
def inpTrailingWS : PipelineInput :=
  ⟨some (MIN_INPUT_COLS, amRowsEx), some (MIN_INPUT_COLS, pmRowsEx), some geomLinesWS⟩

/-- Pipeline input with a clean ATTOUT file. -/
def inpGood : PipelineInput :=
  ⟨some (MIN_INPUT_COLS, amRowsEx), some (MIN_INPUT_COLS, pmRowsEx),
   some ["HANDLE\tBLOCKNAME\tNODE_ID\tEBL", "H1\tMain St\t101\t"]⟩

/-- A ten-column geometry header for witnesses. -/
def headerEx : List String :=
  ["HANDLE", "BLOCKNAME", "NODE_ID", "A4", "A5", "A6", "A7", "A8", "A9", "A10"]

/-- A merged-strings table reduced to one key, for assembler examples. -/
def mdEx : List (String × List (String × String)) := [("101", [("EBL", "(4)10")])]

/-- First record of the duplicate-HANDLE counterexample: its BLOCKNAME is
blank, so the required-field check drops it before the HANDLE is
registered. -/
def dupRec1 : List (String × String) :=
  [("HANDLE", "H1"), ("BLOCKNAME", ""), ("NODE_ID", "101")]

/-- Second record of the duplicate-HANDLE counterexample: fully valid and
sharing the HANDLE of `dupRec1`. -/
def dupRec2 : List (String × String) :=
  [("HANDLE", "H1"), ("BLOCKNAME", "Main St"), ("NODE_ID", "101")]

/-- A valid geometry record for witnesses. -/
def vRec1 : List (String × String) :=
  [("HANDLE", "H1"), ("BLOCKNAME", "B1"), ("NODE_ID", "101")]

/-- A second valid geometry record sharing the HANDLE of `vRec1`. -/
def vRec2 : List (String × String) :=
  [("HANDLE", "H1"), ("BLOCKNAME", "B2"), ("NODE_ID", "101")]

/-- A valid geometry record whose NODE_ID is absent from `mdEx`. -/
def missRec : List (String × String) :=
  [("HANDLE", "H9"), ("BLOCKNAME", "B9"), ("NODE_ID", "999")]

/-- A loop state that has already registered the HANDLE `H1`. -/
def stSeenH1 : AsmState := ⟨["H1"], [], [], []⟩

/-- C1: for every merged row and movement code the combined display string is
formed by rendering each present side as a truncated-integer string and the
absent side as `-`, concatenated as `(PM)AM` when the approach direction is
`E` or `S` and as `AM(PM)` when it is `W` or `N`; in particular `EBL` with
AM=12, PM=7 yields `(7)12` and `WBL` with AM=12, PM=7 yields `12(7)`. -/
theorem combined_string_directional :
    (∀ move, move ∈ MOVEMENT_COLS → ∀ am pm : Option Rat,
      calculate_merged_string move am pm = specCombinedString move am pm) ∧
    calculate_merged_string "EBL" (some 12) (some 7) = "(7)12" ∧
    calculate_merged_string "WBL" (some 12) (some 7) = "12(7)" := by
  refine ⟨?_, by decide, by decide⟩
  intro move hm am pm
  fin_cases hm <;> rfl

/-- Witness for `combined_string_directional` at the movement `EBL`. -/
theorem combined_string_directional_witness :
    calculate_merged_string "EBL" (some 12) (some 7) =
      specCombinedString "EBL" (some 12) (some 7) :=
  combined_string_directional.1 "EBL" (by decide) (some 12) (some 7)

/-- C2 counterexample: with both sides missing, the movement `EBL` (approach
direction `E`) produces the combined string `(-)-`, not the literal `-(-)`
the claim names, and the ATTIN cell rendering leaves `(-)-` visible instead
of emitting an empty field. -/
theorem both_missing_counterexample :
    calculate_merged_string "EBL" (none : Option Rat) none = "(-)-" ∧
    calculate_merged_string "EBL" (none : Option Rat) none ≠ "-(-)" ∧
    renderAttinCell (some (calculate_merged_string "EBL" none none)) = "(-)-" := by
  exact ⟨rfl, by decide, rfl⟩

/-- C2 amended: with both sides missing, a movement whose code does not start
with `E` or `S` (the `W`/`N` group) produces the literal `-(-)`, which the
ATTIN assembler renders as an empty field; a movement whose code starts with
`E` or `S` produces `(-)-`, which is emitted verbatim in the ATTIN line. -/
theorem both_missing_amended :
    ∀ move, move ∈ MOVEMENT_COLS →
      (pyStartsWithAny move ["E", "S"] = false →
        calculate_merged_string move (none : Option Rat) none = "-(-)" ∧
        renderAttinCell (some (calculate_merged_string move none none)) = "") ∧
      (pyStartsWithAny move ["E", "S"] = true →
        calculate_merged_string move (none : Option Rat) none = "(-)-" ∧
        renderAttinCell (some (calculate_merged_string move none none)) = "(-)-") := by
  intro move hm
  fin_cases hm <;>
    exact ⟨fun h => by first | exact absurd h (by decide) | exact ⟨by decide, by decide⟩,
           fun h => by first | exact absurd h (by decide) | exact ⟨by decide, by decide⟩⟩

/-- Witness for `both_missing_amended` at `WBL` (blanked) and `EBL`
(left visible). -/
theorem both_missing_amended_witness :
    (calculate_merged_string "WBL" (none : Option Rat) none = "-(-)" ∧
      renderAttinCell (some (calculate_merged_string "WBL" none none)) = "") ∧
    (calculate_merged_string "EBL" (none : Option Rat) none = "(-)-" ∧
      renderAttinCell (some (calculate_merged_string "EBL" none none)) = "(-)-") :=
  ⟨(both_missing_amended "WBL" (by decide)).1 (by decide),
   (both_missing_amended "EBL" (by decide)).2 (by decide)⟩

theorem lookup_map_self {α : Type} (f : String → α) :
    ∀ (l : List String) (k : String), k ∈ l →
      List.lookup k (l.map (fun x => (x, f x))) = some (f k) := by
  intro l
  induction l with
  | nil => intro k h; cases h
  | cons a t ih =>
    intro k h
    by_cases hk : k = a
    · subst hk; simp [List.lookup]
    · rcases List.mem_cons.mp h with h1 | h2
      · exact absurd h1 hk
      · simpa [List.lookup, beq_false_of_ne hk] using ih k h2

theorem lookup_eq_none_of_not_mem_keys {α : Type} :
    ∀ (l : List (String × α)) (k : String), k ∉ keysOf l → List.lookup k l = none := by
  intro l
  induction l with
  | nil => intro k _; rfl
  | cons p t ih =>
    intro k h
    have hk : k ≠ p.1 := by
      intro he; exact h (by simp [keysOf, he])
    have ht : k ∉ keysOf t := by
      intro hm; exact h (by simp [keysOf] at hm ⊢; exact Or.inr hm)
    calc List.lookup k (p :: t) = List.lookup k t := by
          cases p with
          | mk a b => simp [List.lookup, beq_false_of_ne hk]
      _ = none := ih k ht

theorem keysOf_map_pair {α : Type} (g : String → α) :
    ∀ l : List String, keysOf (l.map (fun x => (x, g x))) = l := by
  intro l
  induction l with
  | nil => rfl
  | cons a t ih => simp [keysOf] at ih ⊢; exact ih

theorem keysOf_outerMerge (am pm : VolTable) :
    keysOf (outerMerge am pm) =
      keysOf am ++ (keysOf pm).filter (fun k => decide (k ∉ keysOf am)) := by
  rw [outerMerge, keysOf_map_pair]

/-- C3: for every pair of loaded volume tables (whose key lists are
duplicate-free, the data-model invariant of a `VolumeRecord` set), the merged
key list is exactly the union of the AM and PM key lists — every key of
either side appears exactly once and no other key appears — and a key present
on only one side carries `none` for the whole other side, whose every
movement value then reads as missing. -/
theorem merged_key_set (am pm : VolTable)
    (ham : (keysOf am).Nodup) (hpm : (keysOf pm).Nodup) :
    (keysOf (outerMerge am pm)).Nodup ∧
    (∀ k, k ∈ keysOf (outerMerge am pm) ↔ (k ∈ keysOf am ∨ k ∈ keysOf pm)) ∧
    (∀ k, k ∈ keysOf am → k ∉ keysOf pm →
      List.lookup k (outerMerge am pm) = some (List.lookup k am, none)) ∧
    (∀ k, k ∈ keysOf pm → k ∉ keysOf am →
      List.lookup k (outerMerge am pm) = some (none, List.lookup k pm)) ∧
    (∀ m, sideVal none m = none) := by
  refine ⟨?_, ?_, ?_, ?_, fun m => rfl⟩
  · rw [keysOf_outerMerge]
    refine List.Nodup.append ham (hpm.filter _) ?_
    intro a ha hafil
    have := (List.mem_filter.mp hafil).2
    exact (of_decide_eq_true this) ha
  · intro k
    rw [keysOf_outerMerge]
    simp only [List.mem_append, List.mem_filter, decide_eq_true_eq]
    by_cases h : k ∈ keysOf am <;> simp [h]
  · intro k hkam hkpm
    have hmem : k ∈ keysOf am ++ (keysOf pm).filter (fun k => decide (k ∉ keysOf am)) :=
      List.mem_append.mpr (Or.inl hkam)
    have h2 := lookup_map_self (fun k => (List.lookup k am, List.lookup k pm)) _ k hmem
    rw [outerMerge, h2]
    simp [lookup_eq_none_of_not_mem_keys pm k hkpm]
  · intro k hkpm hkam
    have hmem : k ∈ keysOf am ++ (keysOf pm).filter (fun k => decide (k ∉ keysOf am)) := by
      refine List.mem_append.mpr (Or.inr ?_)
      exact List.mem_filter.mpr ⟨hkpm, decide_eq_true hkam⟩
    have h2 := lookup_map_self (fun k => (List.lookup k am, List.lookup k pm)) _ k hmem
    rw [outerMerge, h2]
    simp [lookup_eq_none_of_not_mem_keys am k hkam]

/-- Witness for `merged_key_set` on the one-key example tables. -/
theorem merged_key_set_witness :
    (keysOf (outerMerge amEx pmEx)).Nodup ∧
    List.lookup "101" (outerMerge amEx pmEx) = some (List.lookup "101" amEx, none) ∧
    List.lookup "202" (outerMerge amEx pmEx) = some (none, List.lookup "202" pmEx) :=
  ⟨(merged_key_set amEx pmEx (by decide) (by decide)).1,
   (merged_key_set amEx pmEx (by decide) (by decide)).2.2.1 "101" (by decide) (by decide),
   (merged_key_set amEx pmEx (by decide) (by decide)).2.2.2.1 "202" (by decide) (by decide)⟩

/-- C5: volume loading never fails because of cell values — once the required
columns are present it returns a table — and a movement cell whose value does
not parse as a number (the empty cell included) is stored as the explicit
no-value marker `none`, which is not the number zero and which the combined
display string later renders as the `-` placeholder. -/
theorem unparsable_cell_degrades :
    (∀ header rows, MIN_INPUT_COLS.all (fun c => header.contains c) = true →
      ∃ t, loadVolumeTable header rows = Except.ok t) ∧
    (∀ (r : List (String × String)) (m : String), m ∈ MOVEMENT_COLS →
      ∀ s, r.lookup m = some s → parseNumeric s = none →
        List.lookup m (volRowOfInput r).2 = some none) ∧
    parseNumeric "" = none ∧
    parseNumeric "N/A" = none ∧
    parseNumeric "12" = some 12 ∧
    (none : Option Rat) ≠ some 0 ∧
    fmtVal none = "-" := by
  refine ⟨?_, ?_, by decide, by decide, by decide, by decide, rfl⟩
  · intro header rows h
    refine ⟨(rows.filter (fun r => r.lookup "RECORDNAME" == some "Volume")).map
      volRowOfInput, ?_⟩
    unfold loadVolumeTable
    rw [if_pos h]
  · intro r m hm s hs hparse
    have := lookup_map_self (fun m => (r.lookup m).bind parseNumeric) MOVEMENT_COLS m hm
    simpa [volRowOfInput, hs, hparse] using this

/-- Witness for `unparsable_cell_degrades`: the unparsable `EBL` cell of the
example row loads as the no-value marker and the load itself succeeds. -/
theorem unparsable_cell_degrades_witness :
    (∃ t, loadVolumeTable MIN_INPUT_COLS [volRowEx] = Except.ok t) ∧
    List.lookup "EBL" (volRowOfInput volRowEx).2 = some none :=
  ⟨unparsable_cell_degrades.1 MIN_INPUT_COLS [volRowEx] (by decide),
   unparsable_cell_degrades.2.1 volRowEx "EBL" (by decide) "abc" (by decide) (by decide)⟩

theorem parseAttoutLine_blank (header : List String) (line : String)
    (h : pyStrip line = "") : parseAttoutLine header line = LineParse.blank := by
  simp [parseAttoutLine, h]

theorem parseAttoutLine_malformed (header : List String) (line : String)
    (h0 : pyStrip line ≠ "")
    (h1 : ((pySplitTab (pyStrip line)).map pyStrip).length < 3) :
    parseAttoutLine header line = LineParse.malformed := by
  rw [List.length_map] at h1
  simp [parseAttoutLine, h0, h1]

theorem parseAttoutLine_padded (header : List String) (line : String)
    (h0 : pyStrip line ≠ "")
    (h1 : 3 ≤ ((pySplitTab (pyStrip line)).map pyStrip).length)
    (h2 : ((pySplitTab (pyStrip line)).map pyStrip).length ≤ header.length) :
    parseAttoutLine header line = LineParse.record (header.zip
      ((pySplitTab (pyStrip line)).map pyStrip ++
        List.replicate
          (header.length - ((pySplitTab (pyStrip line)).map pyStrip).length) "")) := by
  rw [List.length_map] at h1 h2
  rcases Nat.lt_or_ge (pySplitTab (pyStrip line)).length header.length with hlt | hge
  · simp [parseAttoutLine, h0, Nat.not_lt.mpr h1, hlt]
  · have hz : header.length - (pySplitTab (pyStrip line)).length = 0 :=
      Nat.sub_eq_zero_of_le hge
    simp [parseAttoutLine, h0, Nat.not_lt.mpr h1, Nat.not_lt.mpr hge, hz]

theorem recordsOfLines_skip (header : List String) (line : String)
    (rest : List String)
    (h : parseAttoutLine header line = LineParse.blank ∨
      parseAttoutLine header line = LineParse.malformed) :
    recordsOfLines header (line :: rest) = recordsOfLines header rest := by
  rcases h with h | h <;> simp [recordsOfLines, List.filterMap_cons, h]

/-- C6: a blank geometry data line is skipped (as `blank`, not counted
malformed) and contributes no record; a line with fewer than 3 tab-separated
fields is dropped as malformed and contributes no record; and a line with at
least 3 but at most as many fields as the header is right-padded with empty
strings to exactly the header width and zipped positionally with the header
names into a record. -/
theorem geometry_line_tolerance (header : List String) (line : String) :
    (pyStrip line = "" →
      parseAttoutLine header line = LineParse.blank ∧
      ∀ rest, recordsOfLines header (line :: rest) = recordsOfLines header rest) ∧
    (pyStrip line ≠ "" → ((pySplitTab (pyStrip line)).map pyStrip).length < 3 →
      parseAttoutLine header line = LineParse.malformed ∧
      ∀ rest, recordsOfLines header (line :: rest) = recordsOfLines header rest) ∧
    (pyStrip line ≠ "" → 3 ≤ ((pySplitTab (pyStrip line)).map pyStrip).length →
      ((pySplitTab (pyStrip line)).map pyStrip).length ≤ header.length →
      parseAttoutLine header line = LineParse.record (header.zip
        ((pySplitTab (pyStrip line)).map pyStrip ++
          List.replicate
            (header.length - ((pySplitTab (pyStrip line)).map pyStrip).length) "")) ∧
      ((pySplitTab (pyStrip line)).map pyStrip ++
        List.replicate
          (header.length - ((pySplitTab (pyStrip line)).map pyStrip).length) "").length
        = header.length) := by
  refine ⟨fun h => ⟨parseAttoutLine_blank header line h, fun rest =>
      recordsOfLines_skip header line rest (Or.inl (parseAttoutLine_blank header line h))⟩,
    fun h0 h1 => ⟨parseAttoutLine_malformed header line h0 h1, fun rest =>
      recordsOfLines_skip header line rest
        (Or.inr (parseAttoutLine_malformed header line h0 h1))⟩,
    fun h0 h1 h2 => ⟨parseAttoutLine_padded header line h0 h1 h2, ?_⟩⟩
  simp only [List.length_append, List.length_replicate]
  omega

/-- Witness for `geometry_line_tolerance`: a 3-field line under the
10-column example header is padded to width 10. -/
theorem geometry_line_tolerance_witness :
    parseAttoutLine headerEx "H1\tB\t7" = LineParse.record (headerEx.zip
      ((pySplitTab (pyStrip "H1\tB\t7")).map pyStrip ++
        List.replicate
          (headerEx.length - ((pySplitTab (pyStrip "H1\tB\t7")).map pyStrip).length) "")) ∧
    ((pySplitTab (pyStrip "H1\tB\t7")).map pyStrip ++
      List.replicate
        (headerEx.length - ((pySplitTab (pyStrip "H1\tB\t7")).map pyStrip).length) "").length
      = headerEx.length :=
  (geometry_line_tolerance headerEx "H1\tB\t7").2.2 (by decide) (by decide) (by decide)

theorem asmStep_invalid (md : List (String × List (String × String)))
    (mo : List String) (st : AsmState) (r : List (String × String))
    (h : ¬ validRec r) :
    (asmStep md mo st r).processed = st.processed ∧
    (asmStep md mo st r).attinRows = st.attinRows := by
  simp only [asmStep]
  by_cases h1 : handleOf r = "" ∨ blocknameOf r = "" ∨ rawNodeOf r = ""
  · rw [if_pos h1]
    exact ⟨rfl, rfl⟩
  · rw [if_neg h1]
    push_neg at h1
    have h2 : nodeIdOf r = "" := by
      by_contra h4
      exact h ⟨h1.1, h1.2.1, h1.2.2, h4⟩
    rw [if_pos h2]
    exact ⟨rfl, rfl⟩

theorem asmStep_skip_dup (md : List (String × List (String × String)))
    (mo : List String) (st : AsmState) (r : List (String × String))
    (hv : validRec r) (hdup : handleOf r ∈ st.processed) :
    asmStep md mo st r = st := by
  obtain ⟨h1, h2, h3, h4⟩ := hv
  simp only [asmStep]
  rw [if_neg (by simp [h1, h2, h3]), if_neg h4, if_pos hdup]

theorem asmStep_new_processed (md : List (String × List (String × String)))
    (mo : List String) (st : AsmState) (r : List (String × String))
    (hv : validRec r) (hnew : handleOf r ∉ st.processed) :
    (asmStep md mo st r).processed = handleOf r :: st.processed := by
  obtain ⟨h1, h2, h3, h4⟩ := hv
  simp only [asmStep]
  rw [if_neg (by simp [h1, h2, h3]), if_neg h4, if_neg hnew]
  cases hl : List.lookup (nodeIdOf r) md <;> rfl

theorem asmStep_miss (md : List (String × List (String × String)))
    (mo : List String) (st : AsmState) (r : List (String × String))
    (hv : validRec r) (hnew : handleOf r ∉ st.processed)
    (hmiss : List.lookup (nodeIdOf r) md = none) :
    asmStep md mo st r =
      { st with processed := handleOf r :: st.processed,
                nodesNotFound := st.nodesNotFound ++ [nodeIdOf r],
                handlesMissing := st.handlesMissing ++ [handleOf r] } := by
  obtain ⟨h1, h2, h3, h4⟩ := hv
  simp only [asmStep]
  rw [if_neg (by simp [h1, h2, h3]), if_neg h4, if_neg hnew, hmiss]

theorem asmStep_hit (md : List (String × List (String × String)))
    (mo : List String) (st : AsmState) (r : List (String × String))
    (row : List (String × String))
    (hv : validRec r) (hnew : handleOf r ∉ st.processed)
    (hhit : List.lookup (nodeIdOf r) md = some row) :
    asmStep md mo st r =
      { st with processed := handleOf r :: st.processed,
                attinRows := st.attinRows ++
                  [[handleOf r, blocknameOf r, nodeIdOf r] ++
                    mo.map (fun mk => renderAttinCell (row.lookup mk))] } := by
  obtain ⟨h1, h2, h3, h4⟩ := hv
  simp only [asmStep]
  rw [if_neg (by simp [h1, h2, h3]), if_neg h4, if_neg hnew, hhit]

theorem asmStep_sim (md : List (String × List (String × String)))
    (mo : List String) {s t : AsmState} (hsim : stateSim s t)
    (r : List (String × String)) :
    stateSim (asmStep md mo s r) (asmStep md mo t r) := by
  obtain ⟨hp, hr⟩ := hsim
  by_cases hv : validRec r
  · by_cases hd : handleOf r ∈ s.processed
    · have hd2 : handleOf r ∈ t.processed := by rw [← hp]; exact hd
      rw [asmStep_skip_dup md mo s r hv hd, asmStep_skip_dup md mo t r hv hd2]
      exact ⟨hp, hr⟩
    · have hd2 : handleOf r ∉ t.processed := by rw [← hp]; exact hd
      cases hl : List.lookup (nodeIdOf r) md with
      | none =>
        rw [asmStep_miss md mo s r hv hd hl, asmStep_miss md mo t r hv hd2 hl]
        exact ⟨by rw [hp], hr⟩
      | some row =>
        rw [asmStep_hit md mo s r row hv hd hl, asmStep_hit md mo t r row hv hd2 hl]
        exact ⟨by rw [hp], by rw [hr]⟩
  · have hi1 := asmStep_invalid md mo s r hv
    have hi2 := asmStep_invalid md mo t r hv
    exact ⟨hi1.1.trans (hp.trans hi2.1.symm), hi1.2.trans (hr.trans hi2.2.symm)⟩

theorem asmStep_processed_shape (md : List (String × List (String × String)))
    (mo : List String) (st : AsmState) (r : List (String × String)) :
    (asmStep md mo st r).processed = st.processed ∨
    (asmStep md mo st r).processed = handleOf r :: st.processed := by
  by_cases hv : validRec r
  · by_cases hd : handleOf r ∈ st.processed
    · rw [asmStep_skip_dup md mo st r hv hd]
      exact Or.inl rfl
    · exact Or.inr (asmStep_new_processed md mo st r hv hd)
  · exact Or.inl (asmStep_invalid md mo st r hv).1

theorem asmRun_cons (md : List (String × List (String × String)))
    (mo : List String) (r : List (String × String))
    (rs : List (List (String × String))) (st : AsmState) :
    asmRun md mo (r :: rs) st = asmRun md mo rs (asmStep md mo st r) := rfl

theorem asmRun_drop_handled (md : List (String × List (String × String)))
    (mo : List String) (h : String) :
    ∀ (rs : List (List (String × String))) (s t : AsmState),
      stateSim s t → h ∈ s.processed →
      stateSim (asmRun md mo rs s)
        (asmRun md mo (rs.filter (fun x => !(handleOf x == h))) t) := by
  intro rs
  induction rs with
  | nil => intro s t hsim _; exact hsim
  | cons r rs ih =>
    intro s t hsim hmem
    by_cases hr : handleOf r = h
    · have hfil : (r :: rs).filter (fun x => !(handleOf x == h)) =
          rs.filter (fun x => !(handleOf x == h)) := by
        simp [List.filter_cons, hr]
      rw [hfil, asmRun_cons]
      have hstep : stateSim (asmStep md mo s r) s := by
        by_cases hv : validRec r
        · have hds : handleOf r ∈ s.processed := by rw [hr]; exact hmem
          rw [asmStep_skip_dup md mo s r hv hds]
          exact ⟨rfl, rfl⟩
        · exact ⟨(asmStep_invalid md mo s r hv).1, (asmStep_invalid md mo s r hv).2⟩
      have hmem2 : h ∈ (asmStep md mo s r).processed := by rw [hstep.1]; exact hmem
      exact ih (asmStep md mo s r) t ⟨hstep.1.trans hsim.1, hstep.2.trans hsim.2⟩ hmem2
    · have hfil : (r :: rs).filter (fun x => !(handleOf x == h)) =
          r :: rs.filter (fun x => !(handleOf x == h)) := by
        simp [List.filter_cons, hr]
      rw [hfil, asmRun_cons, asmRun_cons]
      have hmem2 : h ∈ (asmStep md mo s r).processed := by
        rcases asmStep_processed_shape md mo s r with he | he <;> rw [he]
        · exact hmem
        · exact List.mem_cons_of_mem _ hmem
      exact ih _ _ (asmStep_sim md mo hsim r) hmem2

theorem asmRun_keepFirst (md : List (String × List (String × String)))
    (mo : List String) :
    ∀ (recs : List (List (String × String))) (st : AsmState),
      (∀ r ∈ recs, validRec r) →
      asmRun md mo recs st = asmRun md mo (keepFirstByHandle st.processed recs) st := by
  intro recs
  induction recs with
  | nil => intro st _; rfl
  | cons r rs ih =>
    intro st hv
    have hvr : validRec r := hv r (List.mem_cons_self r rs)
    have hvs : ∀ x ∈ rs, validRec x := fun x hx => hv x (List.mem_cons_of_mem r hx)
    by_cases hd : handleOf r ∈ st.processed
    · have hk : keepFirstByHandle st.processed (r :: rs) =
          keepFirstByHandle st.processed rs := by
        simp [keepFirstByHandle, hd]
      rw [hk, asmRun_cons, asmStep_skip_dup md mo st r hvr hd]
      exact ih st hvs
    · have hk : keepFirstByHandle st.processed (r :: rs) =
          r :: keepFirstByHandle (handleOf r :: st.processed) rs := by
        simp [keepFirstByHandle, hd]
      rw [hk, asmRun_cons, asmRun_cons]
      have hp := asmStep_new_processed md mo st r hvr hd
      rw [← hp]
      exact ih (asmStep md mo st r) hvs

theorem rowsInv_step (md : List (String × List (String × String)))
    (mo : List String) (st : AsmState) (r : List (String × String))
    (h : rowsInv st) : rowsInv (asmStep md mo st r) := by
  by_cases hv : validRec r
  · by_cases hd : handleOf r ∈ st.processed
    · rw [asmStep_skip_dup md mo st r hv hd]
      exact h
    · cases hl : List.lookup (nodeIdOf r) md with
      | none =>
        rw [asmStep_miss md mo st r hv hd hl]
        refine ⟨h.1, ?_⟩
        intro p hp hh hhead
        exact List.mem_cons_of_mem _ (h.2 p hp hh hhead)
      | some row =>
        rw [asmStep_hit md mo st r row hv hd hl]
        constructor
        · show ((st.attinRows ++ _).map (fun p => p.head?)).Nodup
          rw [List.map_append]
          refine List.Nodup.append h.1 (List.nodup_singleton _) ?_
          intro a ha hb
          have hba : a = some (handleOf r) := by
            simpa using hb
          subst hba
          rcases List.mem_map.mp ha with ⟨p, hp, hph⟩
          exact hd (h.2 p hp (handleOf r) hph)
        · intro p hp hh hhead
          rcases List.mem_append.mp hp with hp1 | hp2
          · exact List.mem_cons_of_mem _ (h.2 p hp1 hh hhead)
          · have hpe := List.mem_singleton.mp hp2
            subst hpe
            have : handleOf r = hh := by simpa using hhead
            subst this
            exact List.mem_cons_self _ _
  · have hi := asmStep_invalid md mo st r hv
    refine ⟨?_, ?_⟩
    · rw [hi.2]
      exact h.1
    · intro p hp hh hhead
      rw [hi.1]
      refine h.2 p ?_ hh hhead
      rw [← hi.2]
      exact hp

theorem asmRun_rowsInv (md : List (String × List (String × String)))
    (mo : List String) :
    ∀ (recs : List (List (String × String))) (st : AsmState),
      rowsInv st → rowsInv (asmRun md mo recs st) := by
  intro recs
  induction recs with
  | nil => intro st h; exact h
  | cons r rs ih =>
    intro st h
    rw [asmRun_cons]
    exact ih _ (rowsInv_step md mo st r h)

theorem mergedCsvName_ne_attinTxtName (scen : String) :
    mergedCsvName scen ≠ attinTxtName scen := by
  intro h
  have hd := congrArg String.data h
  rw [mergedCsvName, attinTxtName, String.data_append, String.data_append] at hd
  have h2 := List.append_cancel_left hd
  exact absurd h2 (by decide)

theorem process_ok_of_structuralOk (inp : PipelineInput) (scen : String)
    (h : structuralOk inp) :
    (process_traffic_data inp scen).1.map Prod.fst =
      [mergedCsvName scen, attinTxtName scen] ∧
    (process_traffic_data inp scen).2 =
      Except.ok (mergedCsvName scen, attinTxtName scen) := by
  obtain ⟨ah, ar, ph, pr, l0, ls, ham, hpm, hat, h1, h2, h3, h4⟩ := h
  have hA : loadVolumeTable ah ar = Except.ok
      ((ar.filter (fun r => r.lookup "RECORDNAME" == some "Volume")).map volRowOfInput) := by
    unfold loadVolumeTable
    rw [if_pos h1]
  have hB : loadVolumeTable ph pr = Except.ok
      ((pr.filter (fun r => r.lookup "RECORDNAME" == some "Volume")).map volRowOfInput) := by
    unfold loadVolumeTable
    rw [if_pos h2]
  have hC : parseAttoutStructure (l0 :: ls) =
      Except.ok (pyStrip l0, (pySplitTab (pyStrip l0)).map pyStrip) := by
    simp only [parseAttoutStructure]
    rw [if_pos h3, if_pos h4]
  unfold process_traffic_data
  simp only [ham, hpm, hat, hA, hB, hC]
  simp

/-- C7 counterexample: two geometry records share the HANDLE `H1`; the first
is dropped by the required-field check (blank BLOCKNAME) before the HANDLE is
registered, so the second — a later record with that HANDLE — does produce
the only ATTIN line of the run, contradicting the claim that every later
record with a duplicated HANDLE contributes no line. -/
theorem duplicate_handle_counterexample :
    handleOf dupRec1 = handleOf dupRec2 ∧
    (asmRun mdEx ["EBL"] [dupRec1, dupRec2] initAsmState).attinRows =
      [["H1", "Main St", "101", "(4)10"]] ∧
    (asmRun mdEx ["EBL"] [dupRec1] initAsmState).attinRows = [] :=
  ⟨rfl, rfl, rfl⟩

/-- C7 amended: provided every record of the run passes the required-field
validation (non-empty HANDLE, BLOCKNAME and NODE_ID — the GeometryRecord
usability invariant), the assembler behaves exactly as if only the first
record per HANDLE were present: every later record with a duplicated HANDLE
is skipped and contributes no ATTIN line.  Without that proviso a later
record can emit a line when every earlier record with its HANDLE was dropped
by the required-field check. -/
theorem duplicate_handle_first_wins (md : List (String × List (String × String)))
    (mo : List String) (recs : List (List (String × String)))
    (hv : ∀ r ∈ recs, validRec r) :
    asmRun md mo recs initAsmState =
      asmRun md mo (keepFirstByHandle [] recs) initAsmState :=
  asmRun_keepFirst md mo recs initAsmState hv

/-- Witness for `duplicate_handle_first_wins` on two valid records sharing a
HANDLE. -/
theorem duplicate_handle_first_wins_witness :
    asmRun mdEx ["EBL"] [vRec1, vRec2] initAsmState =
      asmRun mdEx ["EBL"] (keepFirstByHandle [] [vRec1, vRec2]) initAsmState :=
  duplicate_handle_first_wins mdEx ["EBL"] [vRec1, vRec2] (by decide)

/-- C8: a valid geometry record whose NODE_ID is not a key of the merged
table emits no ATTIN line and records the miss; the loop then simply moves
on to the remaining records, and a run whose file-level and header-level
structure is sound always completes with both output files written and a
success result — no lookup miss can abort it. -/
theorem unmatched_node_nonfatal :
    (∀ md mo (st : AsmState) r, validRec r → handleOf r ∉ st.processed →
      List.lookup (nodeIdOf r) md = none →
      (asmStep md mo st r).attinRows = st.attinRows ∧
      (asmStep md mo st r).nodesNotFound = st.nodesNotFound ++ [nodeIdOf r]) ∧
    (∀ md mo (st : AsmState) r rs,
      asmRun md mo (r :: rs) st = asmRun md mo rs (asmStep md mo st r)) ∧
    (∀ inp scen, structuralOk inp →
      (process_traffic_data inp scen).1.map Prod.fst =
        [mergedCsvName scen, attinTxtName scen] ∧
      (process_traffic_data inp scen).2 =
        Except.ok (mergedCsvName scen, attinTxtName scen)) := by
  refine ⟨?_, fun md mo st r rs => rfl, process_ok_of_structuralOk⟩
  intro md mo st r hv hnew hmiss
  rw [asmStep_miss md mo st r hv hnew hmiss]
  exact ⟨rfl, rfl⟩

/-- Witness for `unmatched_node_nonfatal`: the record with NODE_ID 999 finds
no merged entry, emits nothing, records the miss, and the structurally sound
example input still yields both files and success. -/
theorem unmatched_node_nonfatal_witness :
    ((asmStep mdEx ["EBL"] initAsmState missRec).attinRows = initAsmState.attinRows ∧
      (asmStep mdEx ["EBL"] initAsmState missRec).nodesNotFound =
        initAsmState.nodesNotFound ++ [nodeIdOf missRec]) ∧
    ((process_traffic_data inpGood "S").1.map Prod.fst =
        [mergedCsvName "S", attinTxtName "S"] ∧
      (process_traffic_data inpGood "S").2 =
        Except.ok (mergedCsvName "S", attinTxtName "S")) :=
  ⟨unmatched_node_nonfatal.1 mdEx ["EBL"] initAsmState missRec (by decide) (by decide) rfl,
   unmatched_node_nonfatal.2.2 inpGood "S"
     ⟨MIN_INPUT_COLS, amRowsEx, MIN_INPUT_COLS, pmRowsEx,
      "HANDLE\tBLOCKNAME\tNODE_ID\tEBL", ["H1\tMain St\t101\t"],
      rfl, rfl, rfl, by decide, by decide, by decide, by decide⟩⟩

/-- C10: the HANDLE of a record is registered before the NODE_ID lookup, so a
record skipped for an unmatched NODE_ID still registers its HANDLE while
emitting nothing; once a HANDLE is registered every later record carrying it
is skipped and changes no emitted row (even when its own NODE_ID would
match); consequently the emitted ATTIN rows of any run have pairwise
distinct leading HANDLE fields — at most one line per distinct HANDLE. -/
theorem handle_registered_before_lookup :
    (∀ md mo (st : AsmState) r, validRec r → handleOf r ∉ st.processed →
      List.lookup (nodeIdOf r) md = none →
      (asmStep md mo st r).processed = handleOf r :: st.processed ∧
      (asmStep md mo st r).attinRows = st.attinRows) ∧
    (∀ md mo (h : String) (rs : List (List (String × String))) (st : AsmState),
      h ∈ st.processed →
      (asmRun md mo rs st).attinRows =
        (asmRun md mo (rs.filter (fun x => !(handleOf x == h))) st).attinRows) ∧
    (∀ md mo recs,
      ((asmRun md mo recs initAsmState).attinRows.map (fun p => p.head?)).Nodup) := by
  refine ⟨?_, ?_, ?_⟩
  · intro md mo st r hv hnew hmiss
    rw [asmStep_miss md mo st r hv hnew hmiss]
    exact ⟨rfl, rfl⟩
  · intro md mo h rs st hmem
    exact (asmRun_drop_handled md mo h rs st st ⟨rfl, rfl⟩ hmem).2
  · intro md mo recs
    refine (asmRun_rowsInv md mo recs initAsmState ⟨List.nodup_nil, ?_⟩).1
    intro p hp
    cases hp

/-- Witness for `handle_registered_before_lookup`: the missed record
registers `H9` and emits nothing, and with `H1` already registered the valid
record `vRec2` (whose NODE_ID would match) changes no emitted row. -/
theorem handle_registered_before_lookup_witness :
    ((asmStep mdEx ["EBL"] initAsmState missRec).processed =
        handleOf missRec :: initAsmState.processed ∧
      (asmStep mdEx ["EBL"] initAsmState missRec).attinRows = initAsmState.attinRows) ∧
    (asmRun mdEx ["EBL"] [vRec2] stSeenH1).attinRows =
      (asmRun mdEx ["EBL"] ([vRec2].filter (fun x => !(handleOf x == "H1")))
        stSeenH1).attinRows :=
  ⟨handle_registered_before_lookup.1 mdEx ["EBL"] initAsmState missRec
      (by decide) (by decide) rfl,
   handle_registered_before_lookup.2.1 mdEx ["EBL"] "H1" [vRec2] stSeenH1 (by decide)⟩

theorem process_cases (inp : PipelineInput) (scen : String) :
    (((process_traffic_data inp scen).1.map Prod.fst = [] ∨
        (process_traffic_data inp scen).1.map Prod.fst = [mergedCsvName scen]) ∧
      ∃ e, (process_traffic_data inp scen).2 = Except.error e) ∨
    ((process_traffic_data inp scen).1.map Prod.fst =
        [mergedCsvName scen, attinTxtName scen] ∧
      ∃ p, (process_traffic_data inp scen).2 = Except.ok p) := by
  unfold process_traffic_data
  repeat' split
  all_goals
    first
      | exact Or.inl ⟨Or.inl rfl, _, rfl⟩
      | exact Or.inl ⟨Or.inr rfl, _, rfl⟩
      | exact Or.inr ⟨rfl, _, rfl⟩

/-- C4 counterexample: with valid AM/PM volume files and a missing geometry
file, the run fails after the volume-merging stage, yet the Merged CSV has
already been written — a failing stage after volume merging does leave an
output file behind, so the pipeline is not atomic. -/
theorem atomicity_counterexample :
    inpNoGeom.attoutFile = none ∧
    (process_traffic_data inpNoGeom "S").2 = Except.error "ATTOUT file not found" ∧
    (process_traffic_data inpNoGeom "S").1.map Prod.fst = [mergedCsvName "S"] :=
  ⟨rfl, rfl, rfl⟩

/-- C4 amended: a successful run writes exactly the two output artifacts
(Merged CSV then ATTIN); a failing run writes either nothing (a failure
before or during volume loading) or exactly the Merged CSV (a failure in any
later stage, e.g. a missing or structurally invalid geometry file, which is
read only after the Merged CSV write) — failure is not atomic once the
Merged CSV is out. -/
theorem outputs_on_failure (inp : PipelineInput) (scen : String) :
    (∀ p, (process_traffic_data inp scen).2 = Except.ok p →
      (process_traffic_data inp scen).1.map Prod.fst =
        [mergedCsvName scen, attinTxtName scen]) ∧
    (∀ e, (process_traffic_data inp scen).2 = Except.error e →
      (process_traffic_data inp scen).1.map Prod.fst = [] ∨
      (process_traffic_data inp scen).1.map Prod.fst = [mergedCsvName scen]) := by
  rcases process_cases inp scen with ⟨hf, e, he⟩ | ⟨hf, p, hp⟩
  · constructor
    · intro p hp
      rw [hp] at he
      simp at he
    · intro _ _
      exact hf
  · constructor
    · intro _ _
      exact hf
    · intro e he
      rw [hp] at he
      simp at he

/-- Witness for `outputs_on_failure` at the missing-geometry input. -/
theorem outputs_on_failure_witness :
    (process_traffic_data inpNoGeom "S").1.map Prod.fst = [] ∨
    (process_traffic_data inpNoGeom "S").1.map Prod.fst = [mergedCsvName "S"] :=
  (outputs_on_failure inpNoGeom "S").2 "ATTOUT file not found" rfl

theorem takeWhile_append_cons (p : Char → Bool) :
    ∀ (l1 : List Char) (c : Char) (l2 : List Char),
      (∀ x ∈ l1, p x = true) → p c = false →
      (l1 ++ c :: l2).takeWhile p = l1 := by
  intro l1
  induction l1 with
  | nil =>
    intro c l2 _ hc
    simp [List.takeWhile_cons, hc]
  | cons a t ih =>
    intro c l2 hall hc
    have ha := hall a (List.mem_cons_self a t)
    have ht := ih c l2 (fun x hx => hall x (List.mem_cons_of_mem a hx)) hc
    simp [List.takeWhile_cons, ha, ht]

theorem firstLineOf_header (a b : String) (ha : '\n' ∉ a.data) :
    firstLineOf (a ++ "\n" ++ b) = a := by
  unfold firstLineOf
  have hd : (a ++ "\n" ++ b).data = a.data ++ '\n' :: b.data := by
    rw [String.data_append, String.data_append]
    simp
  have hall : ∀ x ∈ a.data, (!(x == '\n')) = true := by
    intro x hx
    have hne : x ≠ '\n' := fun he => ha (he ▸ hx)
    simp [hne]
  rw [hd, takeWhile_append_cons _ a.data '\n' b.data hall (by decide)]

theorem mem_pyStripList (x : Char) (l : List Char) (h : x ∈ pyStripList l) : x ∈ l := by
  unfold pyStripList at h
  rw [List.mem_reverse] at h
  have h1 := (List.dropWhile_sublist _).subset h
  rw [List.mem_reverse] at h1
  exact (List.dropWhile_sublist _).subset h1

theorem parseAttoutStructure_ok_fst (l0 : String) (ls : List String)
    (hdr : String × List String)
    (h : parseAttoutStructure (l0 :: ls) = Except.ok hdr) : hdr.1 = pyStrip l0 := by
  simp only [parseAttoutStructure] at h
  by_cases h1 : (pyStrip l0).data.contains '\t'
  · rw [if_pos h1] at h
    by_cases h2 : (ATTOUT_MIN_COLS.all
        (fun c => ((pySplitTab (pyStrip l0)).map pyStrip).contains c)) = true
    · rw [if_pos h2] at h
      cases h
      rfl
    · rw [if_neg h2] at h
      exact Except.noConfusion h
  · rw [if_neg h1] at h
    exact Except.noConfusion h

theorem process_attin_content (inp : PipelineInput) (scen : String)
    (l0 : String) (ls : List String) (hatt : inp.attoutFile = some (l0 :: ls))
    (content : String)
    (hc : List.lookup (attinTxtName scen) (process_traffic_data inp scen).1 =
      some content) :
    ∃ rows, content = renderAttin (pyStrip l0) rows := by
  have hne : (attinTxtName scen == mergedCsvName scen) = false :=
    beq_false_of_ne (Ne.symm (mergedCsvName_ne_attinTxtName scen))
  unfold process_traffic_data at hc
  cases ham : inp.amFile with
  | none =>
    rw [ham] at hc
    simp only [] at hc
    exact Option.noConfusion hc
  | some am_csv =>
    rw [ham] at hc
    simp only [] at hc
    cases hA : loadVolumeTable am_csv.1 am_csv.2 with
    | error e =>
      rw [hA] at hc
      exact Option.noConfusion hc
    | ok df_am =>
      rw [hA] at hc
      simp only [] at hc
      cases hpmf : inp.pmFile with
      | none =>
        rw [hpmf] at hc
        exact Option.noConfusion hc
      | some pm_csv =>
        rw [hpmf] at hc
        simp only [] at hc
        cases hB : loadVolumeTable pm_csv.1 pm_csv.2 with
        | error e =>
          rw [hB] at hc
          exact Option.noConfusion hc
        | ok df_pm =>
          rw [hB] at hc
          simp only [] at hc
          rw [hatt] at hc
          simp only [] at hc
          cases hC : parseAttoutStructure (l0 :: ls) with
          | error e =>
            rw [hC] at hc
            simp [List.lookup, hne] at hc
          | ok hdr =>
            rw [hC] at hc
            simp only [List.lookup, hne, beq_self_eq_true] at hc
            refine ⟨(asmRun (mergedStrings df_am df_pm)
              (hdr.2.filter (fun c => MOVEMENT_COLS.contains c))
              (recordsOfLines hdr.2 ((l0 :: ls).drop 1)) initAsmState).attinRows, ?_⟩
            rw [← parseAttoutStructure_ok_fst l0 ls hdr hC]
            exact (Option.some.inj hc).symm

/-- C9 counterexample: an accepted geometry file whose header line carries a
trailing space produces an ATTIN file whose first line is the stripped
header — it differs from the original header line by more than the line
terminator (the trailing space is gone). -/
theorem header_preservation_counterexample :
    geomLinesWS.head? = some "HANDLE\tBLOCKNAME\tNODE_ID\tEBL " ∧
    List.lookup (attinTxtName "S") (process_traffic_data inpTrailingWS "S").1 =
      some "HANDLE\tBLOCKNAME\tNODE_ID\tEBL\nH1\tMain St\t101\t(4)10" ∧
    firstLineOf "HANDLE\tBLOCKNAME\tNODE_ID\tEBL\nH1\tMain St\t101\t(4)10" =
      "HANDLE\tBLOCKNAME\tNODE_ID\tEBL" ∧
    "HANDLE\tBLOCKNAME\tNODE_ID\tEBL" ≠ "HANDLE\tBLOCKNAME\tNODE_ID\tEBL " :=
  ⟨rfl, rfl, rfl, by decide⟩

/-- C9 amended: whenever the run writes an ATTIN file, its first line equals
the Python-stripped original header line of the geometry file; in particular
it is byte-for-byte the original header line exactly when that line carries
no leading or trailing whitespace beyond its terminator. -/
theorem header_preservation_stripped (inp : PipelineInput) (scen : String)
    (l0 : String) (ls : List String)
    (hatt : inp.attoutFile = some (l0 :: ls)) (hnl : '\n' ∉ l0.data)
    (content : String)
    (hc : List.lookup (attinTxtName scen) (process_traffic_data inp scen).1 =
      some content) :
    firstLineOf content = pyStrip l0 ∧
    (pyStrip l0 = l0 → firstLineOf content = l0) := by
  obtain ⟨rows, hrows⟩ := process_attin_content inp scen l0 ls hatt content hc
  have hnl2 : '\n' ∉ (pyStrip l0).data := fun hm => hnl (mem_pyStripList _ _ hm)
  have h1 : firstLineOf content = pyStrip l0 := by
    rw [hrows]
    exact firstLineOf_header (pyStrip l0) (joinSep "\n" (rows.map (joinSep "\t"))) hnl2
  exact ⟨h1, fun he => by rw [h1, he]⟩

/-- Witness for `header_preservation_stripped` on the clean example input. -/
theorem header_preservation_stripped_witness :
    firstLineOf "HANDLE\tBLOCKNAME\tNODE_ID\tEBL\nH1\tMain St\t101\t(4)10" =
      pyStrip "HANDLE\tBLOCKNAME\tNODE_ID\tEBL" ∧
    (pyStrip "HANDLE\tBLOCKNAME\tNODE_ID\tEBL" = "HANDLE\tBLOCKNAME\tNODE_ID\tEBL" →
      firstLineOf "HANDLE\tBLOCKNAME\tNODE_ID\tEBL\nH1\tMain St\t101\t(4)10" =
        "HANDLE\tBLOCKNAME\tNODE_ID\tEBL") :=
  header_preservation_stripped inpGood "S" "HANDLE\tBLOCKNAME\tNODE_ID\tEBL"
    ["H1\tMain St\t101\t"] rfl (by decide)
    "HANDLE\tBLOCKNAME\tNODE_ID\tEBL\nH1\tMain St\t101\t(4)10" rfl

end TrafficApp
